import Mathlib

/-!
Verification of the floem-tailwind utility-styling extension (src/lib.rs).

The crate is a table of named constants (spacing, container sizes, radii,
font sizes, weights, line heights, shadow presets) plus an extension trait
whose methods each delegate to one setter of the host toolkit style object.
All Rust f32/f64 literals appearing in the source are exactly representable
as rationals, so constants are embedded as exact values in the rationals.
-/

namespace FloemTailwind

/-! Tailwind-style spacing scale constants from src/lib.rs (mod spacing),
pixel values, each an exactly-representable f64 literal. -/
namespace spacing

def SPACING_0 : ℚ := 0

def SPACING_PX : ℚ := 1

def SPACING_0_5 : ℚ := 2

def SPACING_1 : ℚ := 4

def SPACING_1_5 : ℚ := 6

def SPACING_2 : ℚ := 8

def SPACING_2_5 : ℚ := 10

def SPACING_3 : ℚ := 12

def SPACING_3_5 : ℚ := 14

def SPACING_4 : ℚ := 16

def SPACING_5 : ℚ := 20

def SPACING_6 : ℚ := 24

def SPACING_7 : ℚ := 28

def SPACING_8 : ℚ := 32

def SPACING_9 : ℚ := 36

def SPACING_10 : ℚ := 40

def SPACING_11 : ℚ := 44

def SPACING_12 : ℚ := 48

def SPACING_14 : ℚ := 56

def SPACING_16 : ℚ := 64

def SPACING_20 : ℚ := 80

def SPACING_24 : ℚ := 96

def SPACING_28 : ℚ := 112

def SPACING_32 : ℚ := 128

def SPACING_36 : ℚ := 144

def SPACING_40 : ℚ := 160

def SPACING_44 : ℚ := 176

def SPACING_48 : ℚ := 192

def SPACING_52 : ℚ := 208

def SPACING_56 : ℚ := 224

def SPACING_60 : ℚ := 240

def SPACING_64 : ℚ := 256

def SPACING_72 : ℚ := 288

def SPACING_80 : ℚ := 320

def SPACING_96 : ℚ := 384

def SIZE_XS : ℚ := 320

def SIZE_SM : ℚ := 384

def SIZE_MD : ℚ := 448

def SIZE_LG : ℚ := 512

def SIZE_XL : ℚ := 576

def SIZE_2XL : ℚ := 672

def SIZE_3XL : ℚ := 768

def SIZE_4XL : ℚ := 896

def SIZE_5XL : ℚ := 1024

def SIZE_6XL : ℚ := 1152

def SIZE_7XL : ℚ := 1280

end spacing

/-! Border radius scale from src/lib.rs (mod radius). -/
namespace radius

def ROUNDED_NONE : ℚ := 0

def ROUNDED_SM : ℚ := 2

def ROUNDED : ℚ := 4

def ROUNDED_MD : ℚ := 6

def ROUNDED_LG : ℚ := 8

def ROUNDED_XL : ℚ := 12

def ROUNDED_2XL : ℚ := 16

def ROUNDED_3XL : ℚ := 24

def ROUNDED_FULL : ℚ := 9999

end radius

/-! Font size scale from src/lib.rs (mod font_size), f32 pixel values. -/
namespace font_size

def TEXT_XS : ℚ := 12

def TEXT_SM : ℚ := 14

def TEXT_BASE : ℚ := 16

def TEXT_LG : ℚ := 18

def TEXT_XL : ℚ := 20

def TEXT_2XL : ℚ := 24

def TEXT_3XL : ℚ := 30

def TEXT_4XL : ℚ := 36

def TEXT_5XL : ℚ := 48

def TEXT_6XL : ℚ := 60

def TEXT_7XL : ℚ := 72

def TEXT_8XL : ℚ := 96

def TEXT_9XL : ℚ := 128

end font_size

/-! Font weight values from src/lib.rs (mod font_weight); the host
Weight newtype wraps the usual numeric CSS weights 100..900, noted in
the source comments. -/
namespace font_weight

def THIN : ℕ := 100

def EXTRALIGHT : ℕ := 200

def LIGHT : ℕ := 300

def NORMAL : ℕ := 400

def MEDIUM : ℕ := 500

def SEMIBOLD : ℕ := 600

def BOLD : ℕ := 700

def EXTRABOLD : ℕ := 800

def BLACK : ℕ := 900

end font_weight

/-! Line height multipliers from src/lib.rs (mod line_height). -/
namespace line_height

def LEADING_NONE : ℚ := 1

def LEADING_TIGHT : ℚ := 5 / 4

def LEADING_SNUG : ℚ := 11 / 8

def LEADING_NORMAL : ℚ := 3 / 2

def LEADING_RELAXED : ℚ := 13 / 8

def LEADING_LOOSE : ℚ := 2

end line_height

/-- RGBA color with 8-bit channels, as built by the host color API
Color::from_rgba8. -/
structure Color where
  r : ℕ
  g : ℕ
  b : ℕ
  a : ℕ
deriving DecidableEq, Repr

/-- Host color constructor Color::from_rgba8(r, g, b, a). -/
def Color.from_rgba8 (r g b a : ℕ) : Color := ⟨r, g, b, a⟩

/-- Rust numeric cast from a nonnegative real-valued scalar to u8
(expression value as u8): saturating, truncating toward zero. -/
def rustAsU8 (q : ℚ) : ℕ :=
  if q < 0 then 0 else min 255 (Int.toNat ⌊q⌋)

/-- Box shadow value of the host toolkit, modelled with the fields the
source sets (h_offset, v_offset, blur_radius, spread, color). -/
structure BoxShadow where
  hOffset : ℚ
  vOffset : ℚ
  blurRadius : ℚ
  spreadV : ℚ
  colorV : Color
deriving DecidableEq, Repr

/-- Host builder BoxShadow::new(); all fields are overwritten by every
shadow preset in the source before use, so the defaults are immaterial. -/
def BoxShadow.new : BoxShadow := ⟨0, 0, 0, 0, ⟨0, 0, 0, 255⟩⟩

def BoxShadow.h_offset (s : BoxShadow) (v : ℚ) : BoxShadow := { s with hOffset := v }

def BoxShadow.v_offset (s : BoxShadow) (v : ℚ) : BoxShadow := { s with vOffset := v }

def BoxShadow.blur_radius (s : BoxShadow) (v : ℚ) : BoxShadow := { s with blurRadius := v }

def BoxShadow.spread (s : BoxShadow) (v : ℚ) : BoxShadow := { s with spreadV := v }

def BoxShadow.color (s : BoxShadow) (v : Color) : BoxShadow := { s with colorV := v }

/-! Shadow presets from src/lib.rs (mod shadow). The opacity literals
0.05, 0.1 and 0.25 are embedded as exact rationals; at each of these
inputs the f32 product opacity * 255.0 rounds to a value with the same
integer truncation as the exact rational product (12.75, 25.5 and 63.75
are exact f32 values and the f32 products round to them), so the u8
alpha below agrees bit-exactly with the compiled Rust code. -/
namespace shadow

def shadow_color (opacity : ℚ) : Color :=
  Color.from_rgba8 0 0 0 (rustAsU8 (opacity * 255))

def shadow_sm : BoxShadow :=
  ((((BoxShadow.new.h_offset 0).v_offset 1).blur_radius 2).spread 0).color
    (shadow_color (5 / 100))

def shadow_default : BoxShadow :=
  ((((BoxShadow.new.h_offset 0).v_offset 1).blur_radius 3).spread 0).color
    (shadow_color (1 / 10))

def shadow_md : BoxShadow :=
  ((((BoxShadow.new.h_offset 0).v_offset 4).blur_radius 6).spread (-1)).color
    (shadow_color (1 / 10))

def shadow_lg : BoxShadow :=
  ((((BoxShadow.new.h_offset 0).v_offset 10).blur_radius 15).spread (-3)).color
    (shadow_color (1 / 10))

def shadow_xl : BoxShadow :=
  ((((BoxShadow.new.h_offset 0).v_offset 20).blur_radius 25).spread (-5)).color
    (shadow_color (1 / 10))

def shadow_2xl : BoxShadow :=
  ((((BoxShadow.new.h_offset 0).v_offset 25).blur_radius 50).spread (-12)).color
    (shadow_color (25 / 100))

end shadow

/-- Dimension value of the host unit API (floem::unit::PxPctAuto):
pixels, percent, or the auto sentinel. -/
inductive PxPctAuto where
  | Px (v : ℚ)
  | Pct (v : ℚ)
  | Auto
deriving DecidableEq, Repr

/-- Host display mode (floem::style::Display). -/
inductive Display where
  | Flex
  | Block
  | Grid
  | None
deriving DecidableEq, Repr

/-- Host flex direction (floem::style::FlexDirection). -/
inductive FlexDirection where
  | Row
  | Column
  | RowReverse
  | ColumnReverse
deriving DecidableEq, Repr

/-- Host flex wrap (floem::style::FlexWrap). -/
inductive FlexWrap where
  | Wrap
  | NoWrap
  | WrapReverse
deriving DecidableEq, Repr

/-- Host cursor style (floem::style::CursorStyle), the six variants the
extension uses. -/
inductive CursorStyle where
  | Pointer
  | Default
  | Text
  | Move
  | Grab
  | Grabbing
deriving DecidableEq, Repr

/-- Modelled from the spec: the host toolkit style value (floem Style is
an external dependency, not part of this repository). Per the spec it is
an opaque builder whose setters each assign one style property
absolutely; the outbound interface lists setters for width, height,
min/max width, padding (aggregate, horizontal/vertical pairs, per side),
margin (likewise, with an auto sentinel), gap, border width/color,
border radius, background color, text color, font size/weight, line
height, the box shadow list, display mode, flex direction, flex wrap
and cursor style. Each host setter is modelled as writing one property
slot; a slot is `none` until first set. -/
structure Style where
  widthP : Option PxPctAuto := none
  heightP : Option PxPctAuto := none
  minWidthP : Option PxPctAuto := none
  maxWidthP : Option PxPctAuto := none
  paddingP : Option PxPctAuto := none
  paddingHorizP : Option PxPctAuto := none
  paddingVertP : Option PxPctAuto := none
  paddingTopP : Option PxPctAuto := none
  paddingBottomP : Option PxPctAuto := none
  paddingLeftP : Option PxPctAuto := none
  paddingRightP : Option PxPctAuto := none
  marginP : Option PxPctAuto := none
  marginHorizP : Option PxPctAuto := none
  marginVertP : Option PxPctAuto := none
  marginTopP : Option PxPctAuto := none
  marginBottomP : Option PxPctAuto := none
  marginLeftP : Option PxPctAuto := none
  marginRightP : Option PxPctAuto := none
  gapP : Option ℚ := none
  borderRadiusP : Option ℚ := none
  borderP : Option ℚ := none
  borderColorP : Option Color := none
  backgroundP : Option Color := none
  textColorP : Option Color := none
  fontSizeP : Option ℚ := none
  fontWeightP : Option ℕ := none
  lineHeightP : Option ℚ := none
  boxShadowsP : Option (List BoxShadow) := none
  displayP : Option Display := none
  flexDirectionP : Option FlexDirection := none
  flexWrapP : Option FlexWrap := none
  cursorP : Option CursorStyle := none
deriving DecidableEq, Repr

/-- Host constructor Style::new(): no property set. -/
def Style.new : Style := {}

def Style.width (s : Style) (v : PxPctAuto) : Style := { s with widthP := some v }

def Style.height (s : Style) (v : PxPctAuto) : Style := { s with heightP := some v }

def Style.min_width (s : Style) (v : PxPctAuto) : Style := { s with minWidthP := some v }

def Style.max_width (s : Style) (v : PxPctAuto) : Style := { s with maxWidthP := some v }

def Style.padding (s : Style) (v : PxPctAuto) : Style := { s with paddingP := some v }

def Style.padding_horiz (s : Style) (v : PxPctAuto) : Style := { s with paddingHorizP := some v }

def Style.padding_vert (s : Style) (v : PxPctAuto) : Style := { s with paddingVertP := some v }

def Style.padding_top (s : Style) (v : PxPctAuto) : Style := { s with paddingTopP := some v }

def Style.padding_bottom (s : Style) (v : PxPctAuto) : Style := { s with paddingBottomP := some v }

def Style.padding_left (s : Style) (v : PxPctAuto) : Style := { s with paddingLeftP := some v }

def Style.padding_right (s : Style) (v : PxPctAuto) : Style := { s with paddingRightP := some v }

def Style.margin (s : Style) (v : PxPctAuto) : Style := { s with marginP := some v }

def Style.margin_horiz (s : Style) (v : PxPctAuto) : Style := { s with marginHorizP := some v }

def Style.margin_vert (s : Style) (v : PxPctAuto) : Style := { s with marginVertP := some v }

def Style.margin_top (s : Style) (v : PxPctAuto) : Style := { s with marginTopP := some v }

def Style.margin_bottom (s : Style) (v : PxPctAuto) : Style := { s with marginBottomP := some v }

def Style.margin_left (s : Style) (v : PxPctAuto) : Style := { s with marginLeftP := some v }

def Style.margin_right (s : Style) (v : PxPctAuto) : Style := { s with marginRightP := some v }

def Style.gap (s : Style) (v : ℚ) : Style := { s with gapP := some v }

def Style.border_radius (s : Style) (v : ℚ) : Style := { s with borderRadiusP := some v }

def Style.border (s : Style) (v : ℚ) : Style := { s with borderP := some v }

def Style.border_color (s : Style) (v : Color) : Style := { s with borderColorP := some v }

def Style.background (s : Style) (v : Color) : Style := { s with backgroundP := some v }

def Style.color (s : Style) (v : Color) : Style := { s with textColorP := some v }

def Style.font_size (s : Style) (v : ℚ) : Style := { s with fontSizeP := some v }

def Style.font_weight (s : Style) (v : ℕ) : Style := { s with fontWeightP := some v }

def Style.line_height (s : Style) (v : ℚ) : Style := { s with lineHeightP := some v }

def Style.apply_box_shadows (s : Style) (v : List BoxShadow) : Style := { s with boxShadowsP := some v }

def Style.display (s : Style) (v : Display) : Style := { s with displayP := some v }

def Style.flex_direction (s : Style) (v : FlexDirection) : Style := { s with flexDirectionP := some v }

def Style.flex_wrap (s : Style) (v : FlexWrap) : Style := { s with flexWrapP := some v }

def Style.cursor (s : Style) (v : CursorStyle) : Style := { s with cursorP := some v }

/-- Numeric spacing steps of the width/height/size macro lists in
src/lib.rs (35 entries: w_0 .. w_96 and the px/half steps). -/
inductive SpacingStep where
  | s0 | sPx | s0p5 | s1 | s1p5 | s2 | s2p5 | s3 | s3p5 | s4
  | s5 | s6 | s7 | s8 | s9 | s10 | s11 | s12 | s14 | s16
  | s20 | s24 | s28 | s32 | s36 | s40 | s44 | s48 | s52 | s56
  | s60 | s64 | s72 | s80 | s96
deriving DecidableEq, Repr

/-- Pixel value each width/height/size step passes to the host setter,
from the macro invocation lists (w_0 and w_px use the literals 0.0 and
1.0; the rest use the spacing constants). -/
def spacingVal : SpacingStep → ℚ
  | .s0 => 0
  | .sPx => 1
  | .s0p5 => spacing.SPACING_0_5
  | .s1 => spacing.SPACING_1
  | .s1p5 => spacing.SPACING_1_5
  | .s2 => spacing.SPACING_2
  | .s2p5 => spacing.SPACING_2_5
  | .s3 => spacing.SPACING_3
  | .s3p5 => spacing.SPACING_3_5
  | .s4 => spacing.SPACING_4
  | .s5 => spacing.SPACING_5
  | .s6 => spacing.SPACING_6
  | .s7 => spacing.SPACING_7
  | .s8 => spacing.SPACING_8
  | .s9 => spacing.SPACING_9
  | .s10 => spacing.SPACING_10
  | .s11 => spacing.SPACING_11
  | .s12 => spacing.SPACING_12
  | .s14 => spacing.SPACING_14
  | .s16 => spacing.SPACING_16
  | .s20 => spacing.SPACING_20
  | .s24 => spacing.SPACING_24
  | .s28 => spacing.SPACING_28
  | .s32 => spacing.SPACING_32
  | .s36 => spacing.SPACING_36
  | .s40 => spacing.SPACING_40
  | .s44 => spacing.SPACING_44
  | .s48 => spacing.SPACING_48
  | .s52 => spacing.SPACING_52
  | .s56 => spacing.SPACING_56
  | .s60 => spacing.SPACING_60
  | .s64 => spacing.SPACING_64
  | .s72 => spacing.SPACING_72
  | .s80 => spacing.SPACING_80
  | .s96 => spacing.SPACING_96

/-- Numeric index n of a spacing step name (half steps included, the
px step carries no index); the scale convention is value = 4 times n. -/
def stepIndex : SpacingStep → Option ℚ
  | .s0 => some 0
  | .sPx => none
  | .s0p5 => some (1 / 2)
  | .s1 => some 1
  | .s1p5 => some (3 / 2)
  | .s2 => some 2
  | .s2p5 => some (5 / 2)
  | .s3 => some 3
  | .s3p5 => some (7 / 2)
  | .s4 => some 4
  | .s5 => some 5
  | .s6 => some 6
  | .s7 => some 7
  | .s8 => some 8
  | .s9 => some 9
  | .s10 => some 10
  | .s11 => some 11
  | .s12 => some 12
  | .s14 => some 14
  | .s16 => some 16
  | .s20 => some 20
  | .s24 => some 24
  | .s28 => some 28
  | .s32 => some 32
  | .s36 => some 36
  | .s40 => some 40
  | .s44 => some 44
  | .s48 => some 48
  | .s52 => some 52
  | .s56 => some 56
  | .s60 => some 60
  | .s64 => some 64
  | .s72 => some 72
  | .s80 => some 80
  | .s96 => some 96

/-- Steps of the min_w_* / max_w_* macro lists (10 entries each, the
two lists are identical). -/
inductive MinMaxStep where
  | m0 | mPx | m1 | m2 | m4 | m8 | m16 | m32 | m64 | m96
deriving DecidableEq, Repr

def minMaxVal : MinMaxStep → ℚ
  | .m0 => 0
  | .mPx => 1
  | .m1 => spacing.SPACING_1
  | .m2 => spacing.SPACING_2
  | .m4 => spacing.SPACING_4
  | .m8 => spacing.SPACING_8
  | .m16 => spacing.SPACING_16
  | .m32 => spacing.SPACING_32
  | .m64 => spacing.SPACING_64
  | .m96 => spacing.SPACING_96

/-- Steps of the p_* / m_* / gap_* macro lists (22 entries each, the
three lists are identical: 0..24 with half steps up to 3.5, then
4..12, 14, 16, 20, 24). -/
inductive PadStep where
  | p0 | pPx | p0p5 | p1 | p1p5 | p2 | p2p5 | p3 | p3p5 | p4
  | p5 | p6 | p7 | p8 | p9 | p10 | p11 | p12 | p14 | p16
  | p20 | p24
deriving DecidableEq, Repr

def padVal : PadStep → ℚ
  | .p0 => 0
  | .pPx => 1
  | .p0p5 => spacing.SPACING_0_5
  | .p1 => spacing.SPACING_1
  | .p1p5 => spacing.SPACING_1_5
  | .p2 => spacing.SPACING_2
  | .p2p5 => spacing.SPACING_2_5
  | .p3 => spacing.SPACING_3
  | .p3p5 => spacing.SPACING_3_5
  | .p4 => spacing.SPACING_4
  | .p5 => spacing.SPACING_5
  | .p6 => spacing.SPACING_6
  | .p7 => spacing.SPACING_7
  | .p8 => spacing.SPACING_8
  | .p9 => spacing.SPACING_9
  | .p10 => spacing.SPACING_10
  | .p11 => spacing.SPACING_11
  | .p12 => spacing.SPACING_12
  | .p14 => spacing.SPACING_14
  | .p16 => spacing.SPACING_16
  | .p20 => spacing.SPACING_20
  | .p24 => spacing.SPACING_24

/-- Steps of the px_* / py_* macro lists (20 entries each, identical:
like the p_* list but without steps 11 and 14). -/
inductive PadXYStep where
  | x0 | xPx | x0p5 | x1 | x1p5 | x2 | x2p5 | x3 | x3p5 | x4
  | x5 | x6 | x7 | x8 | x9 | x10 | x12 | x16 | x20 | x24
deriving DecidableEq, Repr

def padXYVal : PadXYStep → ℚ
  | .x0 => 0
  | .xPx => 1
  | .x0p5 => spacing.SPACING_0_5
  | .x1 => spacing.SPACING_1
  | .x1p5 => spacing.SPACING_1_5
  | .x2 => spacing.SPACING_2
  | .x2p5 => spacing.SPACING_2_5
  | .x3 => spacing.SPACING_3
  | .x3p5 => spacing.SPACING_3_5
  | .x4 => spacing.SPACING_4
  | .x5 => spacing.SPACING_5
  | .x6 => spacing.SPACING_6
  | .x7 => spacing.SPACING_7
  | .x8 => spacing.SPACING_8
  | .x9 => spacing.SPACING_9
  | .x10 => spacing.SPACING_10
  | .x12 => spacing.SPACING_12
  | .x16 => spacing.SPACING_16
  | .x20 => spacing.SPACING_20
  | .x24 => spacing.SPACING_24

/-- Steps of the mx_* / my_* macro lists (18 entries each, identical:
like the px_* list but without steps 7 and 9). -/
inductive MarginXYStep where
  | y0 | yPx | y0p5 | y1 | y1p5 | y2 | y2p5 | y3 | y3p5 | y4
  | y5 | y6 | y8 | y10 | y12 | y16 | y20 | y24
deriving DecidableEq, Repr

def marginXYVal : MarginXYStep → ℚ
  | .y0 => 0
  | .yPx => 1
  | .y0p5 => spacing.SPACING_0_5
  | .y1 => spacing.SPACING_1
  | .y1p5 => spacing.SPACING_1_5
  | .y2 => spacing.SPACING_2
  | .y2p5 => spacing.SPACING_2_5
  | .y3 => spacing.SPACING_3
  | .y3p5 => spacing.SPACING_3_5
  | .y4 => spacing.SPACING_4
  | .y5 => spacing.SPACING_5
  | .y6 => spacing.SPACING_6
  | .y8 => spacing.SPACING_8
  | .y10 => spacing.SPACING_10
  | .y12 => spacing.SPACING_12
  | .y16 => spacing.SPACING_16
  | .y20 => spacing.SPACING_20
  | .y24 => spacing.SPACING_24

/-- Steps of the per-side padding/margin methods pt/pb/pl/pr and the
numeric mt/mb/ml/mr methods (8 entries: 0, 1, 2, 3, 4, 5, 6, 8). -/
inductive SideStep where
  | t0 | t1 | t2 | t3 | t4 | t5 | t6 | t8
deriving DecidableEq, Repr

def sideVal : SideStep → ℚ
  | .t0 => 0
  | .t1 => spacing.SPACING_1
  | .t2 => spacing.SPACING_2
  | .t3 => spacing.SPACING_3
  | .t4 => spacing.SPACING_4
  | .t5 => spacing.SPACING_5
  | .t6 => spacing.SPACING_6
  | .t8 => spacing.SPACING_8

/-- Named container sizes xs..7xl (w_xs.., h_xs.., max_w_xs..). -/
inductive ContainerSize where
  | xs | sm | md | lg | xl | x2l | x3l | x4l | x5l | x6l | x7l
deriving DecidableEq, Repr

def containerVal : ContainerSize → ℚ
  | .xs => spacing.SIZE_XS
  | .sm => spacing.SIZE_SM
  | .md => spacing.SIZE_MD
  | .lg => spacing.SIZE_LG
  | .xl => spacing.SIZE_XL
  | .x2l => spacing.SIZE_2XL
  | .x3l => spacing.SIZE_3XL
  | .x4l => spacing.SIZE_4XL
  | .x5l => spacing.SIZE_5XL
  | .x6l => spacing.SIZE_6XL
  | .x7l => spacing.SIZE_7XL

/-- Named sizes available on min_w_* (only xs..xl exist). -/
inductive MinNamed where
  | nxs | nsm | nmd | nlg | nxl
deriving DecidableEq, Repr

def minNamedVal : MinNamed → ℚ
  | .nxs => spacing.SIZE_XS
  | .nsm => spacing.SIZE_SM
  | .nmd => spacing.SIZE_MD
  | .nlg => spacing.SIZE_LG
  | .nxl => spacing.SIZE_XL

/-- Fractional width/height steps (GPUI-style w_1_2 .. w_1_12 and the
matching h_* methods). -/
inductive Frac where
  | f1_2 | f1_3 | f2_3 | f1_4 | f3_4 | f1_5 | f2_5 | f3_5 | f4_5
  | f1_6 | f5_6 | f1_12
deriving DecidableEq, Repr

/-- Percentage literal each fractional method passes to Pct, as written
in the source (repeating decimals truncated to six decimal digits). -/
def fracPct : Frac → ℚ
  | .f1_2 => 50
  | .f1_3 => 33333333 / 1000000
  | .f2_3 => 66666667 / 1000000
  | .f1_4 => 25
  | .f3_4 => 75
  | .f1_5 => 20
  | .f2_5 => 40
  | .f3_5 => 60
  | .f4_5 => 80
  | .f1_6 => 16666667 / 1000000
  | .f5_6 => 83333333 / 1000000
  | .f1_12 => 8333333 / 1000000

/-- Border radius steps of the rounded_* macro list (9 entries). -/
inductive RadiusStep where
  | rNone | rSm | rBase | rMd | rLg | rXl | r2xl | r3xl | rFull
deriving DecidableEq, Repr

def radiusVal : RadiusStep → ℚ
  | .rNone => radius.ROUNDED_NONE
  | .rSm => radius.ROUNDED_SM
  | .rBase => radius.ROUNDED
  | .rMd => radius.ROUNDED_MD
  | .rLg => radius.ROUNDED_LG
  | .rXl => radius.ROUNDED_XL
  | .r2xl => radius.ROUNDED_2XL
  | .r3xl => radius.ROUNDED_3XL
  | .rFull => radius.ROUNDED_FULL

/-- Border width steps border_0 .. border_8 (literal pixel values). -/
inductive BorderStep where
  | b0 | b1 | b2 | b4 | b8
deriving DecidableEq, Repr

def borderVal : BorderStep → ℚ
  | .b0 => 0
  | .b1 => 1
  | .b2 => 2
  | .b4 => 4
  | .b8 => 8

/-- The seven shadow methods of the trait (six presets plus
shadow_none). -/
inductive ShadowKind where
  | sm | base | md | lg | xl | x2l | off
deriving DecidableEq, Repr

/-- Box shadow list each shadow method passes to apply_box_shadows:
a singleton preset, or the empty list for shadow_none. -/
def shadowList : ShadowKind → List BoxShadow
  | .sm => [shadow.shadow_sm]
  | .base => [shadow.shadow_default]
  | .md => [shadow.shadow_md]
  | .lg => [shadow.shadow_lg]
  | .xl => [shadow.shadow_xl]
  | .x2l => [shadow.shadow_2xl]
  | .off => []

/-- Font size steps of the text_* macro list (13 entries). -/
inductive FontStep where
  | fxs | fsm | fbase | flg | fxl | f2xl | f3xl | f4xl | f5xl
  | f6xl | f7xl | f8xl | f9xl
deriving DecidableEq, Repr

def fontVal : FontStep → ℚ
  | .fxs => font_size.TEXT_XS
  | .fsm => font_size.TEXT_SM
  | .fbase => font_size.TEXT_BASE
  | .flg => font_size.TEXT_LG
  | .fxl => font_size.TEXT_XL
  | .f2xl => font_size.TEXT_2XL
  | .f3xl => font_size.TEXT_3XL
  | .f4xl => font_size.TEXT_4XL
  | .f5xl => font_size.TEXT_5XL
  | .f6xl => font_size.TEXT_6XL
  | .f7xl => font_size.TEXT_7XL
  | .f8xl => font_size.TEXT_8XL
  | .f9xl => font_size.TEXT_9XL

/-- Font weight steps of the font_* macro list (9 entries). -/
inductive WeightStep where
  | thin | extralight | light | normal | medium | semibold | bold
  | extrabold | black
deriving DecidableEq, Repr

def weightVal : WeightStep → ℕ
  | .thin => font_weight.THIN
  | .extralight => font_weight.EXTRALIGHT
  | .light => font_weight.LIGHT
  | .normal => font_weight.NORMAL
  | .medium => font_weight.MEDIUM
  | .semibold => font_weight.SEMIBOLD
  | .bold => font_weight.BOLD
  | .extrabold => font_weight.EXTRABOLD
  | .black => font_weight.BLACK

/-- Line height steps of the leading_* macro list (6 entries). -/
inductive LeadStep where
  | lnone | ltight | lsnug | lnormal | lrelaxed | lloose
deriving DecidableEq, Repr

def leadVal : LeadStep → ℚ
  | .lnone => line_height.LEADING_NONE
  | .ltight => line_height.LEADING_TIGHT
  | .lsnug => line_height.LEADING_SNUG
  | .lnormal => line_height.LEADING_NORMAL
  | .lrelaxed => line_height.LEADING_RELAXED
  | .lloose => line_height.LEADING_LOOSE

/-- The named operations of the TailwindExt trait (impl for Style,
src/lib.rs lines 1343-2131). Macro-generated families are grouped by
their step enum; singleton methods are individual constructors. The
color-taking families (bg_*, text_*, border_* colors) carry their color
constant as data because the palette module (src/colors.rs) is not part
of the provided sources; every named color method is an instance of the
corresponding constructor at its palette constant. -/
inductive TwOp where
  | w (st : SpacingStep)
  | h (st : SpacingStep)
  | size (st : SpacingStep)
  | w_named (z : ContainerSize)
  | h_named (z : ContainerSize)
  | w_full
  | w_auto
  | w_frac (f : Frac)
  | h_full
  | h_auto
  | h_frac (f : Frac)
  | min_w (st : MinMaxStep)
  | min_w_full
  | min_w_named (z : MinNamed)
  | max_w (st : MinMaxStep)
  | max_w_full
  | max_w_named (z : ContainerSize)
  | p (st : PadStep)
  | px (st : PadXYStep)
  | py (st : PadXYStep)
  | pt (st : SideStep)
  | pb (st : SideStep)
  | pl (st : SideStep)
  | pr (st : SideStep)
  | m (st : PadStep)
  | m_auto
  | mx (st : MarginXYStep)
  | mx_auto
  | my (st : MarginXYStep)
  | my_auto
  | mt (st : SideStep)
  | mt_auto
  | mb (st : SideStep)
  | mb_auto
  | ml (st : SideStep)
  | ml_auto
  | mr (st : SideStep)
  | mr_auto
  | gap (st : PadStep)
  | rounded (st : RadiusStep)
  | border (st : BorderStep)
  | shadow (k : ShadowKind)
  | bg (c : Color)
  | text (c : Color)
  | border_color (c : Color)
  | text_size (st : FontStep)
  | font_w (st : WeightStep)
  | leading (st : LeadStep)
  | disp (d : Display)
  | flex_dir (d : FlexDirection)
  | flex_wr (d : FlexWrap)
  | cursor_op (d : CursorStyle)
deriving Repr

/-- Semantics of each named operation: the one-line delegation body from
the impl block, applied to the style value. -/
def applyTw : TwOp → Style → Style
  | .w st, s => s.width (.Px (spacingVal st))
  | .h st, s => s.height (.Px (spacingVal st))
  | .size st, s => (s.width (.Px (spacingVal st))).height (.Px (spacingVal st))
  | .w_named z, s => s.width (.Px (containerVal z))
  | .h_named z, s => s.height (.Px (containerVal z))
  | .w_full, s => s.width (.Pct 100)
  | .w_auto, s => s.width .Auto
  | .w_frac f, s => s.width (.Pct (fracPct f))
  | .h_full, s => s.height (.Pct 100)
  | .h_auto, s => s.height .Auto
  | .h_frac f, s => s.height (.Pct (fracPct f))
  | .min_w st, s => s.min_width (.Px (minMaxVal st))
  | .min_w_full, s => s.min_width (.Pct 100)
  | .min_w_named z, s => s.min_width (.Px (minNamedVal z))
  | .max_w st, s => s.max_width (.Px (minMaxVal st))
  | .max_w_full, s => s.max_width (.Pct 100)
  | .max_w_named z, s => s.max_width (.Px (containerVal z))
  | .p st, s => s.padding (.Px (padVal st))
  | .px st, s => s.padding_horiz (.Px (padXYVal st))
  | .py st, s => s.padding_vert (.Px (padXYVal st))
  | .pt st, s => s.padding_top (.Px (sideVal st))
  | .pb st, s => s.padding_bottom (.Px (sideVal st))
  | .pl st, s => s.padding_left (.Px (sideVal st))
  | .pr st, s => s.padding_right (.Px (sideVal st))
  | .m st, s => s.margin (.Px (padVal st))
  | .m_auto, s => s.margin .Auto
  | .mx st, s => s.margin_horiz (.Px (marginXYVal st))
  | .mx_auto, s => s.margin_horiz .Auto
  | .my st, s => s.margin_vert (.Px (marginXYVal st))
  | .my_auto, s => s.margin_vert .Auto
  | .mt st, s => s.margin_top (.Px (sideVal st))
  | .mt_auto, s => s.margin_top .Auto
  | .mb st, s => s.margin_bottom (.Px (sideVal st))
  | .mb_auto, s => s.margin_bottom .Auto
  | .ml st, s => s.margin_left (.Px (sideVal st))
  | .ml_auto, s => s.margin_left .Auto
  | .mr st, s => s.margin_right (.Px (sideVal st))
  | .mr_auto, s => s.margin_right .Auto
  | .gap st, s => s.gap (padVal st)
  | .rounded st, s => s.border_radius (radiusVal st)
  | .border st, s => s.border (borderVal st)
  | .shadow k, s => s.apply_box_shadows (shadowList k)
  | .bg c, s => s.background c
  | .text c, s => s.color c
  | .border_color c, s => s.border_color c
  | .text_size st, s => s.font_size (fontVal st)
  | .font_w st, s => s.font_weight (weightVal st)
  | .leading st, s => s.line_height (leadVal st)
  | .disp d, s => s.display d
  | .flex_dir d, s => s.flex_direction d
  | .flex_wr d, s => s.flex_wrap d
  | .cursor_op d, s => s.cursor d

/-- One key per property slot of the modelled host style value. -/
inductive PropKey where
  | width | height | minWidth | maxWidth
  | padding | paddingHoriz | paddingVert
  | paddingTop | paddingBottom | paddingLeft | paddingRight
  | margin | marginHoriz | marginVert
  | marginTop | marginBottom | marginLeft | marginRight
  | gap | borderRadius | borderWidth | borderColor
  | background | textColor | fontSize | fontWeight | lineHeight
  | boxShadows | display | flexDirection | flexWrap | cursor
deriving DecidableEq, Repr

/-- A property slot value, tagged by its kind. -/
inductive PropVal where
  | dim (v : Option PxPctAuto)
  | num (v : Option ℚ)
  | wt (v : Option ℕ)
  | col (v : Option Color)
  | shadows (v : Option (List BoxShadow))
  | dis (v : Option Display)
  | fdir (v : Option FlexDirection)
  | fwrap (v : Option FlexWrap)
  | cur (v : Option CursorStyle)
deriving DecidableEq, Repr

/-- Read one property slot of a style value. -/
def getProp : PropKey → Style → PropVal
  | .width, s => .dim s.widthP
  | .height, s => .dim s.heightP
  | .minWidth, s => .dim s.minWidthP
  | .maxWidth, s => .dim s.maxWidthP
  | .padding, s => .dim s.paddingP
  | .paddingHoriz, s => .dim s.paddingHorizP
  | .paddingVert, s => .dim s.paddingVertP
  | .paddingTop, s => .dim s.paddingTopP
  | .paddingBottom, s => .dim s.paddingBottomP
  | .paddingLeft, s => .dim s.paddingLeftP
  | .paddingRight, s => .dim s.paddingRightP
  | .margin, s => .dim s.marginP
  | .marginHoriz, s => .dim s.marginHorizP
  | .marginVert, s => .dim s.marginVertP
  | .marginTop, s => .dim s.marginTopP
  | .marginBottom, s => .dim s.marginBottomP
  | .marginLeft, s => .dim s.marginLeftP
  | .marginRight, s => .dim s.marginRightP
  | .gap, s => .num s.gapP
  | .borderRadius, s => .num s.borderRadiusP
  | .borderWidth, s => .num s.borderP
  | .borderColor, s => .col s.borderColorP
  | .background, s => .col s.backgroundP
  | .textColor, s => .col s.textColorP
  | .fontSize, s => .num s.fontSizeP
  | .fontWeight, s => .wt s.fontWeightP
  | .lineHeight, s => .num s.lineHeightP
  | .boxShadows, s => .shadows s.boxShadowsP
  | .display, s => .dis s.displayP
  | .flexDirection, s => .fdir s.flexDirectionP
  | .flexWrap, s => .fwrap s.flexWrapP
  | .cursor, s => .cur s.cursorP

/-- The property slots a named operation writes. -/
def targets : TwOp → List PropKey
  | .w _ | .w_named _ | .w_full | .w_auto | .w_frac _ => [.width]
  | .h _ | .h_named _ | .h_full | .h_auto | .h_frac _ => [.height]
  | .size _ => [.width, .height]
  | .min_w _ | .min_w_full | .min_w_named _ => [.minWidth]
  | .max_w _ | .max_w_full | .max_w_named _ => [.maxWidth]
  | .p _ => [.padding]
  | .px _ => [.paddingHoriz]
  | .py _ => [.paddingVert]
  | .pt _ => [.paddingTop]
  | .pb _ => [.paddingBottom]
  | .pl _ => [.paddingLeft]
  | .pr _ => [.paddingRight]
  | .m _ | .m_auto => [.margin]
  | .mx _ | .mx_auto => [.marginHoriz]
  | .my _ | .my_auto => [.marginVert]
  | .mt _ | .mt_auto => [.marginTop]
  | .mb _ | .mb_auto => [.marginBottom]
  | .ml _ | .ml_auto => [.marginLeft]
  | .mr _ | .mr_auto => [.marginRight]
  | .gap _ => [.gap]
  | .rounded _ => [.borderRadius]
  | .border _ => [.borderWidth]
  | .shadow _ => [.boxShadows]
  | .bg _ => [.background]
  | .text _ => [.textColor]
  | .border_color _ => [.borderColor]
  | .text_size _ => [.fontSize]
  | .font_w _ => [.fontWeight]
  | .leading _ => [.lineHeight]
  | .disp _ => [.display]
  | .flex_dir _ => [.flexDirection]
  | .flex_wr _ => [.flexWrap]
  | .cursor_op _ => [.cursor]

/-- The constant a named operation writes into each of its target
slots (size operations write the same pixel value to both). -/
def writeVal : TwOp → PropVal
  | .w st => .dim (some (.Px (spacingVal st)))
  | .h st => .dim (some (.Px (spacingVal st)))
  | .size st => .dim (some (.Px (spacingVal st)))
  | .w_named z => .dim (some (.Px (containerVal z)))
  | .h_named z => .dim (some (.Px (containerVal z)))
  | .w_full => .dim (some (.Pct 100))
  | .w_auto => .dim (some .Auto)
  | .w_frac f => .dim (some (.Pct (fracPct f)))
  | .h_full => .dim (some (.Pct 100))
  | .h_auto => .dim (some .Auto)
  | .h_frac f => .dim (some (.Pct (fracPct f)))
  | .min_w st => .dim (some (.Px (minMaxVal st)))
  | .min_w_full => .dim (some (.Pct 100))
  | .min_w_named z => .dim (some (.Px (minNamedVal z)))
  | .max_w st => .dim (some (.Px (minMaxVal st)))
  | .max_w_full => .dim (some (.Pct 100))
  | .max_w_named z => .dim (some (.Px (containerVal z)))
  | .p st => .dim (some (.Px (padVal st)))
  | .px st => .dim (some (.Px (padXYVal st)))
  | .py st => .dim (some (.Px (padXYVal st)))
  | .pt st => .dim (some (.Px (sideVal st)))
  | .pb st => .dim (some (.Px (sideVal st)))
  | .pl st => .dim (some (.Px (sideVal st)))
  | .pr st => .dim (some (.Px (sideVal st)))
  | .m st => .dim (some (.Px (padVal st)))
  | .m_auto => .dim (some .Auto)
  | .mx st => .dim (some (.Px (marginXYVal st)))
  | .mx_auto => .dim (some .Auto)
  | .my st => .dim (some (.Px (marginXYVal st)))
  | .my_auto => .dim (some .Auto)
  | .mt st => .dim (some (.Px (sideVal st)))
  | .mt_auto => .dim (some .Auto)
  | .mb st => .dim (some (.Px (sideVal st)))
  | .mb_auto => .dim (some .Auto)
  | .ml st => .dim (some (.Px (sideVal st)))
  | .ml_auto => .dim (some .Auto)
  | .mr st => .dim (some (.Px (sideVal st)))
  | .mr_auto => .dim (some .Auto)
  | .gap st => .num (some (padVal st))
  | .rounded st => .num (some (radiusVal st))
  | .border st => .num (some (borderVal st))
  | .shadow k => .shadows (some (shadowList k))
  | .bg c => .col (some c)
  | .text c => .col (some c)
  | .border_color c => .col (some c)
  | .text_size st => .num (some (fontVal st))
  | .font_w st => .wt (some (weightVal st))
  | .leading st => .num (some (leadVal st))
  | .disp d => .dis (some d)
  | .flex_dir d => .fdir (some d)
  | .flex_wr d => .fwrap (some d)
  | .cursor_op d => .cur (some d)

/-- Whether an operation is one of the size_* methods (width and
height together). -/
def isSizeOp : TwOp → Bool
  | .size _ => true
  | _ => false

/-- The spacing steps in scale order, as listed in the source. -/
def spacingOrder : List SpacingStep :=
  [.s0, .sPx, .s0p5, .s1, .s1p5, .s2, .s2p5, .s3, .s3p5, .s4,
   .s5, .s6, .s7, .s8, .s9, .s10, .s11, .s12, .s14, .s16,
   .s20, .s24, .s28, .s32, .s36, .s40, .s44, .s48, .s52, .s56,
   .s60, .s64, .s72, .s80, .s96]

/-- The radius steps in scale order, as listed in the source. -/
def radiusOrder : List RadiusStep :=
  [.rNone, .rSm, .rBase, .rMd, .rLg, .rXl, .r2xl, .r3xl, .rFull]

/-- The font size steps in scale order, as listed in the source. -/
def fontOrder : List FontStep :=
  [.fxs, .fsm, .fbase, .flg, .fxl, .f2xl, .f3xl, .f4xl, .f5xl,
   .f6xl, .f7xl, .f8xl, .f9xl]

/-- Each named operation writes its constant into every slot it
targets, regardless of the incoming style value. -/
theorem applyTw_writes (op : TwOp) (s : Style) (k : PropKey)
    (hk : k ∈ targets op) : getProp k (applyTw op s) = writeVal op := by
  cases op <;>
    simp only [targets, List.mem_cons, List.mem_singleton,
      List.not_mem_nil, or_false] at hk <;>
    first
      | (subst hk; rfl)
      | (rcases hk with rfl | rfl <;> rfl)

/-- Each named operation leaves every slot outside its target list
unchanged. -/
theorem applyTw_frame (op : TwOp) (s : Style) (k : PropKey)
    (hk : k ∉ targets op) : getProp k (applyTw op s) = getProp k s := by
  cases op <;> cases k <;>
    first
      | rfl
      | (exact absurd (by simp [targets]) hk)

/-- The alpha computation of the shadow_sm opacity: 0.05 times 255 is
12.75, which the u8 cast truncates to 12. -/
theorem rustAsU8_sm_opacity : rustAsU8 (5 / 100 * 255) = 12 := by
  simp only [rustAsU8]
  norm_num
  rfl

/-- C1 counterexample: the claim asserts round semantics, giving the
shadow_sm preset an alpha channel of round(0.05 times 255) = 13; the
code casts with `as u8`, which truncates, so the alpha is 12, not 13. -/
theorem c1_shadow_sm_alpha_not_13 : ¬ shadow.shadow_sm.colorV.a = 13 := by
  have h : shadow.shadow_sm.colorV.a = 12 := rustAsU8_sm_opacity
  omega

/-- C1 (amended): the shadow color derivation truncates opacity times
255 toward zero for the 8-bit alpha channel; in particular the
shadow_sm preset, built with opacity 0.05, has alpha equal to the floor
of 0.05 times 255 = floor 12.75 = 12. -/
theorem c1_shadow_alpha_truncates :
    shadow.shadow_color (5 / 100) = Color.from_rgba8 0 0 0 12 ∧
    shadow.shadow_sm.colorV.a = 12 ∧
    ((shadow.shadow_color (5 / 100)).a : ℤ) = ⌊(5 / 100 : ℚ) * 255⌋ := by
  refine ⟨?_, rustAsU8_sm_opacity, ?_⟩
  · show Color.from_rgba8 0 0 0 (rustAsU8 (5 / 100 * 255)) =
      Color.from_rgba8 0 0 0 12
    rw [rustAsU8_sm_opacity]
  · show ((rustAsU8 (5 / 100 * 255) : ℕ) : ℤ) = ⌊(5 / 100 : ℚ) * 255⌋
    rw [rustAsU8_sm_opacity]
    norm_num

/-- C2: every base numeric spacing step n of the scale maps to the
pixel constant 4 times n; in particular step 2 maps to 8, step 4 to 16,
step 8 to 32 and step 16 to 64. -/
theorem c2_spacing_scale :
    (∀ (st : SpacingStep) (n : ℚ), stepIndex st = some n →
      spacingVal st = 4 * n) ∧
    spacingVal .s2 = 8 ∧ spacingVal .s4 = 16 ∧
    spacingVal .s8 = 32 ∧ spacingVal .s16 = 64 := by
  have base : ∀ (st : SpacingStep) (n : ℚ), stepIndex st = some n →
      spacingVal st = 4 * n := by
    intro st n h
    cases st <;> simp only [stepIndex, Option.some.injEq] at h
    case sPx => exact Option.noConfusion h
    all_goals subst h
    all_goals
      norm_num [spacingVal, spacing.SPACING_0_5, spacing.SPACING_1,
             spacing.SPACING_1_5, spacing.SPACING_2, spacing.SPACING_2_5,
             spacing.SPACING_3, spacing.SPACING_3_5, spacing.SPACING_4,
             spacing.SPACING_5, spacing.SPACING_6, spacing.SPACING_7,
             spacing.SPACING_8, spacing.SPACING_9, spacing.SPACING_10,
             spacing.SPACING_11, spacing.SPACING_12, spacing.SPACING_14,
             spacing.SPACING_16, spacing.SPACING_20, spacing.SPACING_24,
             spacing.SPACING_28, spacing.SPACING_32, spacing.SPACING_36,
             spacing.SPACING_40, spacing.SPACING_44, spacing.SPACING_48,
             spacing.SPACING_52, spacing.SPACING_56, spacing.SPACING_60,
             spacing.SPACING_64, spacing.SPACING_72, spacing.SPACING_80,
             spacing.SPACING_96]
  refine ⟨base, ?_, ?_, ?_, ?_⟩
  · norm_num [base .s2 2 rfl]
  · norm_num [base .s4 4 rfl]
  · norm_num [base .s8 8 rfl]
  · norm_num [base .s16 16 rfl]

/-- C2 witness: the universally quantified part applied at step 2. -/
theorem c2_spacing_scale_witness :
    stepIndex .s2 = some 2 ∧ spacingVal .s2 = 4 * 2 :=
  ⟨rfl, c2_spacing_scale.1 .s2 2 rfl⟩

/-- C3 counterexample: the claim asserts every named container size is
a fixed 64px offset from its neighbor, but SIZE_2XL = 672 while
SIZE_XL = 576, a 96px offset. -/
theorem c3_container_offset_breaks :
    spacing.SIZE_XL = 576 ∧ spacing.SIZE_2XL = 672 ∧
    ¬ spacing.SIZE_2XL = spacing.SIZE_XL + 64 := by
  norm_num [spacing.SIZE_XL, spacing.SIZE_2XL]

/-- C3 (amended): sm = 384, md = 448, lg = 512, and the sizes xs
through xl form a 64px-offset sequence starting at xs = 320; beyond xl
the offsets grow to 96 and then 128. -/
theorem c3_container_sizes :
    spacing.SIZE_SM = 384 ∧ spacing.SIZE_MD = 448 ∧
    spacing.SIZE_LG = 512 ∧ spacing.SIZE_XS = 320 ∧
    spacing.SIZE_SM = spacing.SIZE_XS + 64 ∧
    spacing.SIZE_MD = spacing.SIZE_SM + 64 ∧
    spacing.SIZE_LG = spacing.SIZE_MD + 64 ∧
    spacing.SIZE_XL = spacing.SIZE_LG + 64 ∧
    spacing.SIZE_2XL = spacing.SIZE_XL + 96 ∧
    spacing.SIZE_3XL = spacing.SIZE_2XL + 96 ∧
    spacing.SIZE_4XL = spacing.SIZE_3XL + 128 ∧
    spacing.SIZE_5XL = spacing.SIZE_4XL + 128 ∧
    spacing.SIZE_6XL = spacing.SIZE_5XL + 128 ∧
    spacing.SIZE_7XL = spacing.SIZE_6XL + 128 := by
  norm_num [spacing.SIZE_XS, spacing.SIZE_SM, spacing.SIZE_MD,
    spacing.SIZE_LG, spacing.SIZE_XL, spacing.SIZE_2XL, spacing.SIZE_3XL,
    spacing.SIZE_4XL, spacing.SIZE_5XL, spacing.SIZE_6XL, spacing.SIZE_7XL]

/-- C4: the border radius scale satisfies sm = 2, md = 6, lg = 8, and
the full step is at least 9999. -/
theorem c4_radius_scale :
    radius.ROUNDED_SM = 2 ∧ radius.ROUNDED_MD = 6 ∧
    radius.ROUNDED_LG = 8 ∧ (9999 : ℚ) ≤ radius.ROUNDED_FULL := by
  norm_num [radius.ROUNDED_SM, radius.ROUNDED_MD, radius.ROUNDED_LG,
    radius.ROUNDED_FULL]

/-- C5: the one-half fractional operations w_1_2 and h_1_2 set exactly
50 percent; the one-third and two-thirds percentage constants sum to
100 within 1e-5; six times the one-sixth constant is 100 within the
same tolerance. -/
theorem c5_fractional_sizing :
    (∀ s : Style,
      getProp .width (applyTw (.w_frac .f1_2) s) = .dim (some (.Pct 50)) ∧
      getProp .height (applyTw (.h_frac .f1_2) s) = .dim (some (.Pct 50))) ∧
    |fracPct .f1_3 + fracPct .f2_3 - 100| ≤ 1 / 100000 ∧
    |6 * fracPct .f1_6 - 100| ≤ 1 / 100000 := by
  refine ⟨fun s => ⟨rfl, rfl⟩, by norm_num [fracPct],
    by norm_num [fracPct, abs_le]⟩

/-- C6: every named operation is idempotent: applying it twice to any
style value yields the same end state as applying it once, since each
sets absolute values. -/
theorem c6_idempotent :
    ∀ (op : TwOp) (s : Style), applyTw op (applyTw op s) = applyTw op s := by
  intro op s
  cases op <;> rfl

/-- C7: for any two named operations that target a common property and
any style value, applying A then B leaves that property at the constant
B writes, and applying B then A leaves it at the constant A writes. -/
theorem c7_last_write_wins :
    ∀ (A B : TwOp) (s : Style) (k : PropKey),
      k ∈ targets A → k ∈ targets B →
      getProp k (applyTw B (applyTw A s)) = writeVal B ∧
      getProp k (applyTw A (applyTw B s)) = writeVal A :=
  fun A B s k hA hB =>
    ⟨applyTw_writes B (applyTw A s) k hB, applyTw_writes A (applyTw B s) k hA⟩

/-- C7 witness: w_4 and w_full both target width; each order ends with
the later operation's value. -/
theorem c7_last_write_wins_witness :
    PropKey.width ∈ targets (.w .s4) ∧ PropKey.width ∈ targets .w_full ∧
    (getProp .width (applyTw .w_full (applyTw (.w .s4) Style.new)) =
        writeVal .w_full ∧
      getProp .width (applyTw (.w .s4) (applyTw .w_full Style.new)) =
        writeVal (.w .s4)) :=
  ⟨by decide, by decide,
    c7_last_write_wins (.w .s4) .w_full Style.new .width (by decide) (by decide)⟩

/-- C8: every named operation writes exactly one property slot (two,
width and height, for the size operations), setting it to its associated
constant, and leaves every other property of the input style value
unchanged. -/
theorem c8_single_property :
    ∀ (op : TwOp) (s : Style),
      (targets op).length = (if isSizeOp op then 2 else 1) ∧
      (∀ k, k ∈ targets op → getProp k (applyTw op s) = writeVal op) ∧
      (∀ k, k ∉ targets op → getProp k (applyTw op s) = getProp k s) := by
  intro op s
  refine ⟨?_, fun k hk => applyTw_writes op s k hk,
    fun k hk => applyTw_frame op s k hk⟩
  cases op <;> rfl

/-- C8 witness: size_4 targets exactly width and height, writes 16px to
width, and leaves the gap slot of a fresh style untouched. -/
theorem c8_single_property_witness :
    (targets (.size .s4)).length = 2 ∧
    PropKey.width ∈ targets (.size .s4) ∧
    getProp .width (applyTw (.size .s4) Style.new) = writeVal (.size .s4) ∧
    PropKey.gap ∉ targets (.size .s4) ∧
    getProp .gap (applyTw (.size .s4) Style.new) = getProp .gap Style.new := by
  obtain ⟨h1, h2, h3⟩ := c8_single_property (.size .s4) Style.new
  exact ⟨h1, by decide, h2 .width (by decide), by decide, h3 .gap (by decide)⟩

/-- C9: the spacing, radius and font-size scales are strictly
increasing along their ordered step sequences, and each step name maps
to exactly one value. -/
theorem c9_scales_monotone :
    List.Sorted (· < ·) (spacingOrder.map spacingVal) ∧
    List.Sorted (· < ·) (radiusOrder.map radiusVal) ∧
    List.Sorted (· < ·) (fontOrder.map fontVal) ∧
    (∀ st : SpacingStep, ∃! v, spacingVal st = v) ∧
    (∀ st : RadiusStep, ∃! v, radiusVal st = v) ∧
    (∀ st : FontStep, ∃! v, fontVal st = v) := by
  refine ⟨List.chain'_iff_pairwise.mp ?_, List.chain'_iff_pairwise.mp ?_,
    List.chain'_iff_pairwise.mp ?_, ?_, ?_, ?_⟩
  · norm_num [spacingOrder, spacingVal, spacing.SPACING_0_5,
      spacing.SPACING_1, spacing.SPACING_1_5, spacing.SPACING_2,
      spacing.SPACING_2_5, spacing.SPACING_3, spacing.SPACING_3_5,
      spacing.SPACING_4, spacing.SPACING_5, spacing.SPACING_6,
      spacing.SPACING_7, spacing.SPACING_8, spacing.SPACING_9,
      spacing.SPACING_10, spacing.SPACING_11, spacing.SPACING_12,
      spacing.SPACING_14, spacing.SPACING_16, spacing.SPACING_20,
      spacing.SPACING_24, spacing.SPACING_28, spacing.SPACING_32,
      spacing.SPACING_36, spacing.SPACING_40, spacing.SPACING_44,
      spacing.SPACING_48, spacing.SPACING_52, spacing.SPACING_56,
      spacing.SPACING_60, spacing.SPACING_64, spacing.SPACING_72,
      spacing.SPACING_80, spacing.SPACING_96]
  · norm_num [radiusOrder, radiusVal, radius.ROUNDED_NONE,
      radius.ROUNDED_SM, radius.ROUNDED, radius.ROUNDED_MD,
      radius.ROUNDED_LG, radius.ROUNDED_XL, radius.ROUNDED_2XL,
      radius.ROUNDED_3XL, radius.ROUNDED_FULL]
  · norm_num [fontOrder, fontVal, font_size.TEXT_XS, font_size.TEXT_SM,
      font_size.TEXT_BASE, font_size.TEXT_LG, font_size.TEXT_XL,
      font_size.TEXT_2XL, font_size.TEXT_3XL, font_size.TEXT_4XL,
      font_size.TEXT_5XL, font_size.TEXT_6XL, font_size.TEXT_7XL,
      font_size.TEXT_8XL, font_size.TEXT_9XL]
  all_goals exact fun st => ⟨_, rfl, fun y hy => hy.symm⟩

/-- C10: shadow_none sets the box-shadow list of any style value to the
empty list, and all six shadow presets use a pure black base color
(zero red, green and blue channels). -/
theorem c10_shadow_presets :
    (∀ s : Style,
      getProp .boxShadows (applyTw (.shadow .off) s) = .shadows (some [])) ∧
    shadow.shadow_sm.colorV.r = 0 ∧ shadow.shadow_sm.colorV.g = 0 ∧
    shadow.shadow_sm.colorV.b = 0 ∧
    shadow.shadow_default.colorV.r = 0 ∧ shadow.shadow_default.colorV.g = 0 ∧
    shadow.shadow_default.colorV.b = 0 ∧
    shadow.shadow_md.colorV.r = 0 ∧ shadow.shadow_md.colorV.g = 0 ∧
    shadow.shadow_md.colorV.b = 0 ∧
    shadow.shadow_lg.colorV.r = 0 ∧ shadow.shadow_lg.colorV.g = 0 ∧
    shadow.shadow_lg.colorV.b = 0 ∧
    shadow.shadow_xl.colorV.r = 0 ∧ shadow.shadow_xl.colorV.g = 0 ∧
    shadow.shadow_xl.colorV.b = 0 ∧
    shadow.shadow_2xl.colorV.r = 0 ∧ shadow.shadow_2xl.colorV.g = 0 ∧
    shadow.shadow_2xl.colorV.b = 0 := by
  exact ⟨fun s => rfl, rfl, rfl, rfl, rfl, rfl, rfl, rfl, rfl, rfl, rfl,
    rfl, rfl, rfl, rfl, rfl, rfl, rfl, rfl⟩

end FloemTailwind
